import Mathlib

/-!
Verification development for the Brazil oil & gas production scraper
(`src/scraper/scraper.py`).  The JSON-to-row decoder and the row extractor
are embedded shallowly: Python scalar values become the inductive `Value`,
CSV cell values become `FVal`, machine floats are modelled as exact
rationals (the decimal literals occurring in the data are exactly
representable for every comparison the code performs), and the only
exception that can escape the decoder (a `TypeError` raised while
evaluating the length-4 summary guard on a `None` element) is modelled
with `Except`.  `datetime.fromtimestamp` is modelled in UTC.
-/

set_option maxRecDepth 8192

namespace Brazil

/-- A Python scalar value as it occurs in a decoded JSON row: `None`, an
`int`, a `float` (modelled as an exact rational) or a `str`. -/
inductive Value where
  | null : Value
  | int (n : ℤ) : Value
  | float (q : ℚ) : Value
  | str (s : String) : Value
deriving DecidableEq, Repr

/-- A CSV cell value: the empty marker `''`, a Python `int`, a Python
`float`, or a string. -/
inductive FVal where
  | empty : FVal
  | int (n : ℤ) : FVal
  | float (q : ℚ) : FVal
  | str (s : String) : FVal
deriving DecidableEq, Repr

/-- Python truthiness of a CSV cell value (`''`, `0` and `0.0` are falsy). -/
def FVal.truthy : FVal → Bool
  | .empty => false
  | .int n => n ≠ 0
  | .float q => q ≠ 0
  | .str s => s ≠ ""

/-- Re-injection of a CSV cell value into the scalar value type; the empty
marker is the empty string `''`, exactly as in the Python code. -/
def FVal.toValue : FVal → Value
  | .empty => .str ""
  | .int n => .int n
  | .float q => .float q
  | .str s => .str s

/-- The `ValueDicts` mapping of the payload: dictionary name to ordered
list of display strings. -/
def ValueDicts : Type := List (String × List String)

/-- Membership / retrieval in `ValueDicts` (`dict_key in value_dicts`
followed by `value_dicts[dict_key]`). -/
def lookupDict (vd : ValueDicts) (key : String) : Option (List String) :=
  (List.find? (fun p => p.1 == key) vd).map Prod.snd

/-- One output record of the decoder, with the 15 fields of the CSV. -/
structure CsvRow where
  scrape_datetime : String
  date : String
  installation : String
  oil_production : FVal
  gas_production : FVal
  oil_equivalents_boe : FVal
  operator : String
  type : String
  estado : String
  city : String
  atendimento_campo : String
  campo : String
  quantity : FVal
  code : String
  status : String
deriving DecidableEq, Repr

/-- The freshly initialized `csv_row` dictionary of `map_data_row_to_csv`. -/
def baseRow (ts d : String) : CsvRow :=
  { scrape_datetime := ts, date := d, installation := ""
    oil_production := .empty, gas_production := .empty
    oil_equivalents_boe := .empty, operator := "", type := ""
    estado := "", city := "", atendimento_campo := "", campo := ""
    quantity := .empty, code := "", status := "" }

/-- Model of Python's `value.replace(',', '')`. -/
def stripCommas (s : String) : String := String.mk (s.toList.filter (· ≠ ','))

/-- Model of Python's `c in s` for a single character `c`. -/
def hasChar (s : String) (c : Char) : Bool := s.toList.any (· = c)

/-- Model of Python's `str.lower()` (ASCII letters; the strings the decoder
lowercases are only ever compared against `"gas"`/`"gás"`). -/
def pyLower (s : String) : String := String.mk (s.toList.map Char.toLower)

/-- Model of Python's `str.strip()`: remove surrounding whitespace. -/
def pyStrip (s : String) : String :=
  String.mk (((s.toList.dropWhile Char.isWhitespace).reverse.dropWhile
    Char.isWhitespace).reverse)

/-- Numeric value of a list of decimal digit characters. -/
def natOfDigits (cs : List Char) : ℕ :=
  cs.foldl (fun a c => a * 10 + (c.toNat - '0'.toNat)) 0

/-- The exact rational value of the decimal literal with integer-part
digits `ip`, fractional digits `fp` and decimal exponent `e`. -/
def decToRat (ip fp : List Char) (e : ℤ) : ℚ :=
  if 0 ≤ e then
    mkRat (((natOfDigits ip * 10 ^ fp.length + natOfDigits fp : ℕ) : ℤ) * 10 ^ e.toNat)
      (10 ^ fp.length)
  else
    mkRat ((natOfDigits ip * 10 ^ fp.length + natOfDigits fp : ℕ) : ℤ)
      (10 ^ fp.length * 10 ^ (-e).toNat)

/-- Parse the exponent part following `e`/`E` of a Python float literal:
an optional sign and a non-empty run of digits. -/
def parseExpPart (cs : List Char) : Option ℤ :=
  match cs with
  | '+' :: rest =>
      if rest ≠ [] ∧ rest.all Char.isDigit then some (natOfDigits rest) else none
  | '-' :: rest =>
      if rest ≠ [] ∧ rest.all Char.isDigit then some (-(natOfDigits rest : ℤ)) else none
  | _ =>
      if cs ≠ [] ∧ cs.all Char.isDigit then some (natOfDigits cs) else none

/-- Parse an unsigned Python float literal `digits [. digits] [e exp]`
(at least one digit before or after the point). -/
def parseUnsigned (cs : List Char) : Option ℚ :=
  match cs.dropWhile Char.isDigit with
  | [] =>
      if cs.takeWhile Char.isDigit = [] then none
      else some (decToRat (cs.takeWhile Char.isDigit) [] 0)
  | '.' :: rest2 =>
      if cs.takeWhile Char.isDigit = [] ∧ rest2.takeWhile Char.isDigit = [] then none
      else
        match rest2.dropWhile Char.isDigit with
        | [] => some (decToRat (cs.takeWhile Char.isDigit) (rest2.takeWhile Char.isDigit) 0)
        | c :: rest4 =>
            if c = 'e' ∨ c = 'E' then
              (parseExpPart rest4).map
                (decToRat (cs.takeWhile Char.isDigit) (rest2.takeWhile Char.isDigit))
            else none
  | c :: rest2 =>
      if c = 'e' ∨ c = 'E' then
        if cs.takeWhile Char.isDigit = [] then none
        else (parseExpPart rest2).map (decToRat (cs.takeWhile Char.isDigit) [])
      else none

/-- Model of Python's builtin `float(str)` on finite decimal literals:
strips surrounding whitespace, accepts an optional sign, digits with an
optional fractional part and an optional decimal exponent.  `none` is a
`ValueError`.  (The `inf`/`nan` spellings, digit-group underscores and
binary rounding of the decimal value are not modelled; none of them occur
in the payloads or claims.) -/
def pyFloat? (s : String) : Option ℚ :=
  match (((s.toList.dropWhile Char.isWhitespace).reverse.dropWhile
      Char.isWhitespace).reverse) with
  | '+' :: rest => parseUnsigned rest
  | '-' :: rest => (parseUnsigned rest).map Neg.neg
  | cs => parseUnsigned cs

/-- Model of Python's `int()` applied to a float: truncation toward zero. -/
def ratTrunc (q : ℚ) : ℤ := if q < 0 then -⌊-q⌋ else ⌊q⌋

/-- Model of the nested helper `get_numeric` of `map_data_row_to_csv`
(scraper.py lines 444-460): `None` and non-scalars give `''`; strings have
commas stripped and are parsed as a float when they contain `.` or an
`e`/`E`, otherwise as `int(float(...))`; a zero result is normalized to `''`. -/
def get_numeric : Value → FVal
  | .null => .empty
  | .int n => if n ≠ 0 then .int n else .empty
  | .float q => if q ≠ 0 then .float q else .empty
  | .str s =>
      if hasChar (stripCommas s) '.' ∨ hasChar (pyLower (stripCommas s)) 'e' then
        match pyFloat? (stripCommas s) with
        | some q => if q ≠ 0 then .float q else .empty
        | none => .empty
      else
        match pyFloat? (stripCommas s) with
        | some q => if ratTrunc q ≠ 0 then .int (ratTrunc q) else .empty
        | none => .empty

/-- Model of the nested helper `lookup_text_direct` of
`map_data_row_to_csv` (scraper.py lines 437-442): returns the dictionary
entry only for a known dictionary, an in-bounds integer index and a
non-blank entry; every other case yields `''`. -/
def lookup_text_direct (vd : ValueDicts) (index : Value) (key : String) : String :=
  match index, lookupDict vd key with
  | .int n, some entries =>
      if 0 ≤ n ∧ n.toNat < entries.length then
        if entries.getD n.toNat "" ≠ "" ∧ pyStrip (entries.getD n.toNat "") ≠ "" then
          entries.getD n.toNat ""
        else ""
      else ""
  | _, _ => ""

/-- Civil date (year, month, day) of a day count since 1970-01-01,
proleptic Gregorian calendar (Howard Hinnant's `civil_from_days`). -/
def civilFromDays (days : ℕ) : ℕ × ℕ × ℕ :=
  let z := days + 719468
  let era := z / 146097
  let doe := z % 146097
  let yoe := (doe - doe / 1460 + doe / 36524 - doe / 146096) / 365
  let y := yoe + era * 400
  let doy := doe - (365 * yoe + yoe / 4 - yoe / 100)
  let mp := (5 * doy + 2) / 153
  let d := doy - (153 * mp + 2) / 5 + 1
  let m := if mp < 10 then mp + 3 else mp - 9
  (if m ≤ 2 then y + 1 else y, m, d)

/-- Two-digit zero-padded decimal rendering (for `strftime('%m')`/`'%d'`). -/
def pad2 (n : ℕ) : String := if n < 10 then "0" ++ toString n else toString n

/-- Model of `datetime.fromtimestamp(secs).strftime('%Y-%m-%d')` for a
positive epoch-second count, in UTC; `datetime`'s year-out-of-range
errors (caught in the source) give `''`. -/
def dateFromEpochSecs (secs : ℚ) : String :=
  match civilFromDays ((⌊secs⌋).toNat / 86400) with
  | (y, m, d) =>
      if 9999 < y then "" else toString y ++ "-" ++ pad2 m ++ "-" ++ pad2 d

/-- The numeric tail of `convert_timestamp_to_date`: non-positive numbers
give `''`; values above `1e10` are epoch milliseconds (divided by 1000),
the rest epoch seconds.  The division by 1000 is written as
`mkRat q.num (q.den * 1000)`, a kernel-computable form of `q / 1000`. -/
def convert_numeric_timestamp (q : ℚ) : String :=
  if q ≤ 0 then ""
  else if 10000000000 < q then dateFromEpochSecs (mkRat q.num (q.den * 1000))
  else dateFromEpochSecs q

/-- Model of `convert_timestamp_to_date` (scraper.py lines 616-652): a
total conversion of timestamps (numbers or strings) to `YYYY-MM-DD`;
falsy inputs give `''`, unparseable strings of length at least 10
containing `-` give their first 10 characters, any other failure `''`. -/
def convert_timestamp_to_date : Value → String
  | .null => ""
  | .int n => if n = 0 then "" else convert_numeric_timestamp (n : ℚ)
  | .float q => if q = 0 then "" else convert_numeric_timestamp q
  | .str s =>
      if s = "" then ""
      else
        match pyFloat? s with
        | some q => convert_numeric_timestamp q
        | none =>
            if 10 ≤ s.length ∧ hasChar s '-' then String.mk (s.toList.take 10)
            else ""

/-- Model of the nested helper `get_value` of `map_data_row_to_csv`:
`data_row[index]` when in range (Python `None` and out-of-range both give
`None`, i.e. `.null`). -/
def get_value (row : List Value) (i : ℕ) : Value := (row.get? i).getD .null

/-- Whether a scalar is a number strictly above the epoch-millisecond
threshold `1000000000000` (`isinstance(v, (int, float)) and v > 1e12`). -/
def isBigNum : Value → Bool
  | .int n => 1000000000000 < n
  | .float q => 1000000000000 < q
  | _ => false

/-- One conjunct of the length-4 summary-row guard (scraper.py line 492).
By Python operator precedence it reads
`(isinstance(val, (int, float, str)) and not isinstance(val, int)) or val > 100`,
so a non-`int` scalar passes outright, an `int` passes iff it exceeds 100,
and `None` reaches the comparison `None > 100`, a `TypeError`. -/
def summaryGuardElem : Value → Except String Bool
  | .str _ => .ok true
  | .float _ => .ok true
  | .int n => .ok (decide (100 < n))
  | .null => .error "TypeError"

/-- The `all(...)` of the length-4 summary-row guard, with Python's
left-to-right short-circuit evaluation. -/
def summaryGuard : List Value → Except String Bool
  | [] => .ok true
  | v :: rest =>
      match summaryGuardElem v with
      | .ok true => summaryGuard rest
      | .ok false => .ok false
      | .error e => .error e

/-- The record built by the length-4 summary branch (scraper.py
lines 492-497): positions 0-3 to oil, gas, quantity, BOE. -/
def summaryRecord (row : List Value) (ts d : String) : CsvRow :=
  { baseRow ts d with
    oil_production := get_numeric (get_value row 0)
    gas_production := get_numeric (get_value row 1)
    quantity := get_numeric (get_value row 2)
    oil_equivalents_boe := get_numeric (get_value row 3) }

/-- The record built by the length-4 timestamped summary branch
(scraper.py lines 499-507): a fresh date from element 0 and elements 1-3
to oil, gas, BOE. -/
def tsSummaryRecord (row : List Value) (ts d : String) : CsvRow :=
  { baseRow ts d with
    date := convert_timestamp_to_date (get_value row 0)
    oil_production := get_numeric (get_value row 1)
    gas_production := get_numeric (get_value row 2)
    oil_equivalents_boe := get_numeric (get_value row 3) }

/-- The per-element coercion of the detail-branch production scan
(scraper.py lines 533-541): `float(str(val).replace(',', ''))`, keeping
only non-zero results; `none` means the element is skipped. -/
def prodVal? : Value → Option ℚ
  | .null => none
  | .int n => if (n : ℚ) ≠ 0 then some ((n : ℤ) : ℚ) else none
  | .float q => if q ≠ 0 then some q else none
  | .str s =>
      match pyFloat? (stripCommas s) with
      | some q => if q ≠ 0 then some q else none
      | none => none

/-- The ordered list of non-zero coerced production values collected from
row elements 6 onward. -/
def production_values (row : List Value) : List ℚ := (row.drop 6).filterMap prodVal?

/-- The quantity-candidate test (scraper.py line 548): a value in
`[1, 1000]` that equals its own truncation to `int`. -/
def isQtyCandidate (q : ℚ) : Bool :=
  decide (1 ≤ q) && decide (q ≤ 1000) && decide ((ratTrunc q : ℚ) = q)

/-- Index of the first quantity candidate in the production values. -/
def findQty : List ℚ → Option ℕ
  | [] => none
  | q :: rest => if isQtyCandidate q then some 0 else (findQty rest).map (· + 1)

/-- Whether `pat` occurs as a substring of `s` (chars of `pat` are a
contiguous run inside `s`), Python's `pat in s`. -/
def prefixOfChars : List Char → List Char → Bool
  | [], _ => true
  | _ :: _, [] => false
  | a :: as, b :: bs => a = b && prefixOfChars as bs

/-- Helper for `containsSub`: scan every suffix. -/
def subChars (pat : List Char) : List Char → Bool
  | [] => prefixOfChars pat []
  | c :: tl => prefixOfChars pat (c :: tl) || subChars pat tl

/-- Python's substring test `pat in s`. -/
def containsSub (s pat : String) : Bool := subChars pat.toList s.toList

/-- The type test of scraper.py line 564:
`'gás' in type.lower() or 'gas' in type.lower()`. -/
def gasType (t : String) : Bool :=
  containsSub (pyLower t) "gás" || containsSub (pyLower t) "gas"

/-- Oil/gas assignment from the production values before the quantity
candidate (scraper.py lines 559-567). -/
def assignOilGas (r : CsvRow) (before : List ℚ) : CsvRow :=
  if 2 ≤ before.length then
    { r with oil_production := .float (before.getD 0 0)
             gas_production := .float (before.getD 1 0) }
  else if before.length = 1 then
    if gasType r.type then { r with gas_production := .float (before.getD 0 0) }
    else { r with oil_production := .float (before.getD 0 0) }
  else r

/-- BOE assignment from the production values after the quantity candidate
(scraper.py lines 569-571). -/
def assignBoe (r : CsvRow) (after : List ℚ) : CsvRow :=
  if 1 ≤ after.length then
    { r with oil_equivalents_boe := .float (after.getD 0 0) }
  else r

/-- The production-value disambiguation of the detail branch (scraper.py
lines 543-577), applied when at least 3 production values were collected. -/
def assignProduction (r : CsvRow) (pv : List ℚ) : CsvRow :=
  if 3 ≤ pv.length then
    match findQty pv with
    | some k =>
        assignBoe
          (assignOilGas { r with quantity := .int (ratTrunc (pv.getD k 0)) } (pv.take k))
          (pv.drop (k + 1))
    | none =>
        { r with oil_production := .float (pv.getD 0 0)
                 gas_production := .float (pv.getD 1 0)
                 oil_equivalents_boe := .float (pv.getD 2 0) }
  else r

/-- An integer element in `[0, 1000)` at position `i`, as the code/status
scan of scraper.py lines 580-588 requires. -/
def smallIntAt (row : List Value) (i : ℕ) : Option ℤ :=
  match get_value row i with
  | .int n => if 0 ≤ n ∧ n < 1000 then some n else none
  | _ => none

/-- The code/status resolution of the detail branch (scraper.py lines
580-588): position 7 is skipped, position 8 resolves through `D8` into
`code`, position 9 through `D9` into `status`. -/
def assignCodeStatus (r : CsvRow) (row : List Value) (vd : ValueDicts) : CsvRow :=
  match smallIntAt row 8, smallIntAt row 9 with
  | some n8, some n9 =>
      { r with code := lookup_text_direct vd (.int n8) "D8"
               status := lookup_text_direct vd (.int n9) "D9" }
  | some n8, none => { r with code := lookup_text_direct vd (.int n8) "D8" }
  | none, some n9 => { r with status := lookup_text_direct vd (.int n9) "D9" }
  | none, none => r

/-- The dictionary-resolved text fields of a detail row (scraper.py lines
519-525): elements 0-6 through dictionaries `D0`-`D6`. -/
def resolveFields (row : List Value) (vd : ValueDicts) (ts d : String) : CsvRow :=
  { baseRow ts d with
    installation := lookup_text_direct vd (get_value row 0) "D0"
    operator := lookup_text_direct vd (get_value row 1) "D1"
    type := lookup_text_direct vd (get_value row 2) "D2"
    estado := lookup_text_direct vd (get_value row 3) "D3"
    city := lookup_text_direct vd (get_value row 4) "D4"
    atendimento_campo := lookup_text_direct vd (get_value row 5) "D5"
    campo := lookup_text_direct vd (get_value row 6) "D6" }

/-- The detail-row branch of `map_data_row_to_csv` (scraper.py lines
511-594), for rows of length at least 9: element 0 must be a non-negative
integer index, the installation must resolve non-empty, and the final
acceptance check requires a non-empty installation and at least one of
oil/gas/BOE. -/
def detail_branch (row : List Value) (vd : ValueDicts) (ts d : String) : Option CsvRow :=
  match get_value row 0 with
  | .int n =>
      if n < 0 then none
      else if (resolveFields row vd ts d).installation = "" then none
      else
        if (assignCodeStatus
              (assignProduction (resolveFields row vd ts d) (production_values row))
              row vd).installation ≠ "" ∧
           ((assignCodeStatus
              (assignProduction (resolveFields row vd ts d) (production_values row))
              row vd).oil_production.truthy ∨
            (assignCodeStatus
              (assignProduction (resolveFields row vd ts d) (production_values row))
              row vd).gas_production.truthy ∨
            (assignCodeStatus
              (assignProduction (resolveFields row vd ts d) (production_values row))
              row vd).oil_equivalents_boe.truthy) then
          some (assignCodeStatus
            (assignProduction (resolveFields row vd ts d) (production_values row))
            row vd)
        else none
  | _ => none

/-- Model of `map_data_row_to_csv` (scraper.py lines 428-594): classify a
raw row vector and either build a record (`some`), discard it (`none`),
or raise (`Except.error`, possible only through the length-4 summary
guard's `None > 100` comparison). -/
def map_data_row_to_csv (row : List Value) (vd : ValueDicts) (ts d : String) :
    Except String (Option CsvRow) :=
  if row.length = 0 then .ok none
  else if row.length = 1 then .ok none
  else
    match (if row.length = 4 then summaryGuard row else .ok false) with
    | .error e => .error e
    | .ok true => .ok (some (summaryRecord row ts d))
    | .ok false =>
        if isBigNum (get_value row 0) then
          if row.length = 4 then .ok (some (tsSummaryRecord row ts d)) else .ok none
        else if 9 ≤ row.length then .ok (detail_branch row vd ts d)
        else .ok none

/-- One row entry of a `DM0`/`DM1` row group: `some` is the compressed
column vector under key `C`, `none` an entry without a `C` key. -/
abbrev RowEntry : Type := Option (List Value)

/-- One page block (`PH`): its optional `DM0` (summary) and `DM1`
(detail) row groups. -/
structure PHBlock where
  dm0 : Option (List RowEntry)
  dm1 : Option (List RowEntry)

/-- One data-shape block (`DS`): its `ValueDicts` and page blocks. -/
structure DSBlock where
  valueDicts : ValueDicts
  ph : List PHBlock

/-- One entry of the `results` list, flattened along
`result.data.{timestamp, dsr.DS}` (the intermediate `.get` calls default
missing maps to `{}`, so the flattening is faithful). -/
structure ResultEntry where
  timestamp : String
  ds : List DSBlock

/-- A raw query payload: its `results` list. -/
structure Payload where
  results : List ResultEntry

/-- The row vectors contributed by one page block, `DM0` rows first then
`DM1` rows, entries without a `C` key skipped (scraper.py lines 401-412). -/
def rowsOfPH (ph : PHBlock) : List (List Value) :=
  (ph.dm0.getD []).reduceOption ++ (ph.dm1.getD []).reduceOption

/-- One step of the inferred-date forward scan (scraper.py lines 418-423):
the running date is replaced when the row has length exactly 1, or length
at least 4, and its first element is a number above `1e12`. -/
def dateUpdate (cur : String) (row : List Value) : String :=
  if (row.length = 1 ∧ isBigNum (get_value row 0)) ∨
     (4 ≤ row.length ∧ isBigNum (get_value row 0)) then
    convert_timestamp_to_date (get_value row 0)
  else cur

/-- The inferred-date forward scan over all rows, starting from `cur`. -/
def dateScan (cur : String) : List (List Value) → List String
  | [] => []
  | row :: rest => dateUpdate cur row :: dateScan (dateUpdate cur row) rest

/-- Model of `extract_data_from_json` (scraper.py lines 372-425): locate
the rows, dictionaries and timestamp and compute the parallel inferred
dates; an empty `results` or `DS` list is a fatal `ValueError`. -/
def extract_data_from_json (p : Payload) :
    Except String (List (List Value) × ValueDicts × String × List String) :=
  match p.results with
  | [] => .error "No results found in JSON data"
  | r :: _ =>
      match r.ds with
      | [] => .error "No DS data found in JSON structure - PowerBI session may not be established"
      | ds0 :: _ =>
          .ok ((ds0.ph.map rowsOfPH).flatten, ds0.valueDicts, r.timestamp,
            dateScan "" ((ds0.ph.map rowsOfPH).flatten))

/-- Model of the effective `process_json_to_csv` (the second definition,
scraper.py lines 687-723, which shadows the first): extraction errors
abort the run before any output content exists; otherwise each row is
decoded inside a per-row `try` whose exceptions skip the row, and every
non-raising decode result — including `None` for dropped rows — is
appended to the list handed to the CSV serializer. -/
def process_json_to_csv (p : Payload) : Except String (List (Option CsvRow)) :=
  match extract_data_from_json p with
  | .error e => .error e
  | .ok (rows, vd, ts, dates) =>
      .ok ((rows.zip dates).filterMap (fun rd =>
        match map_data_row_to_csv rd.1 vd ts rd.2 with
        | .ok r => some r
        | .error _ => none))

/-- Specification-style reformulation of the inferred date at position
`i`: the converted first element of the most recent date-marker row at or
before `i`, or `''` when there is none. -/
def isDateMarkerRow (row : List Value) : Bool :=
  (row.length = 1 || 4 ≤ row.length) && isBigNum (get_value row 0)

/-- The inferred date of row `i` under the find-most-recent-marker
reading of the specification. -/
def dateSpecAt (rows : List (List Value)) (i : ℕ) : String :=
  match (rows.take (i + 1)).reverse.find? isDateMarkerRow with
  | some r => convert_timestamp_to_date (get_value r 0)
  | none => ""

example : pyFloat? "120.5" = some (mkRat 241 2) := by decide
example : pyFloat? "1,234" = none := by decide
example : pyFloat? (stripCommas "1,234") = some 1234 := by decide
example : pyFloat? "1e3" = some 1000 := by decide
example : pyFloat? "-2.5e-1" = some (mkRat (-1) 4) := by decide
example : pyFloat? "abc" = none := by decide
example : pyFloat? "" = none := by decide
example : pyFloat? ".5" = some (mkRat 1 2) := by decide
example : get_numeric (.str "0.0") = .empty := by decide
example : get_numeric (.str "1,234") = .int 1234 := by decide
example : get_numeric (.str "12x") = .empty := by decide
example : convert_timestamp_to_date (.int 1700000000000) = "2023-11-14" := by decide
example : convert_timestamp_to_date (.int 1700000000) = "2023-11-14" := by decide
example : convert_timestamp_to_date (.str "2023-05-17T08:00:00") = "2023-05-17" := by decide
example : convert_timestamp_to_date (.str "x-y") = "" := by decide
example : convert_timestamp_to_date (.int 0) = "" := by decide

example :
    map_data_row_to_csv
      [.float (mkRat 401 2), .float (mkRat 601 2), .float (mkRat 301 2), .float (mkRat 801 2)]
      [] "ts" "d" =
    .ok (some { baseRow "ts" "d" with
      oil_production := .float (mkRat 401 2), gas_production := .float (mkRat 601 2)
      quantity := .float (mkRat 301 2), oil_equivalents_boe := .float (mkRat 801 2) }) := rfl

example :
    map_data_row_to_csv
      [.int 1700000000000, .float (mkRat 201 2), .float (mkRat 401 2), .float (mkRat 601 2)]
      [] "ts" "" =
    .ok (some { baseRow "ts" "" with
      oil_production := .int 1700000000000, gas_production := .float (mkRat 201 2)
      quantity := .float (mkRat 401 2), oil_equivalents_boe := .float (mkRat 601 2) }) := rfl

example :
    map_data_row_to_csv [.int 1700000000000, .int 5, .float (mkRat 401 2), .float (mkRat 601 2)]
      [] "ts" "" =
    .ok (some { baseRow "ts" "" with
      date := "2023-11-14", oil_production := .int 5
      gas_production := .float (mkRat 401 2), oil_equivalents_boe := .float (mkRat 601 2) }) := rfl

example :
    map_data_row_to_csv [.float 10, .float 20, .int 5, .float 400] [] "ts" "d" = .ok none := rfl

example :
    map_data_row_to_csv [.null, .float 1, .float 1, .float 1] [] "ts" "d" =
      .error "TypeError" := rfl

example :
    map_data_row_to_csv
      [.int 0, .int 0, .int 0, .int 0, .int 0, .int 0,
       .float (mkRat 241 2), .float (mkRat 151 5), .int 5, .float (mkRat 8001 10)]
      [("D0", ["Inst"]), ("D2", ["Gás"])] "ts" "d" =
    .ok (some { baseRow "ts" "d" with
      installation := "Inst", type := "Gás"
      oil_production := .float (mkRat 241 2), gas_production := .float (mkRat 151 5)
      quantity := .int 5, oil_equivalents_boe := .float (mkRat 8001 10) }) := rfl

example :
    process_json_to_csv ⟨[⟨"ts", [⟨[], [⟨some [some [.int 1700000000000, .int 1]], none⟩]⟩]⟩]⟩ =
      .ok [none] := rfl

example :
    extract_data_from_json ⟨[]⟩ = .error "No results found in JSON data" := rfl

/-! Helper lemmas shared by the claim theorems. -/

lemma filter_ne_comma_idem (l : List Char) :
    (l.filter (· ≠ ',')).filter (· ≠ ',') = l.filter (· ≠ ',') := by
  induction l with
  | nil => rfl
  | cons c tl ih =>
      by_cases hc : c = ',' <;> simp [hc, ih]

lemma stripCommas_idem (s : String) : stripCommas (stripCommas s) = stripCommas s := by
  unfold stripCommas
  exact congrArg String.mk (filter_ne_comma_idem s.toList)

lemma get_numeric_str_parse_fail {s : String} (h : pyFloat? (stripCommas s) = none) :
    get_numeric (.str s) = .empty := by
  simp only [get_numeric]
  split <;> rw [h]

lemma get_numeric_shape (v : Value) :
    get_numeric v = .empty ∨ (∃ n : ℤ, n ≠ 0 ∧ get_numeric v = .int n) ∨
      (∃ q : ℚ, q ≠ 0 ∧ get_numeric v = .float q) := by
  cases v with
  | null => exact Or.inl rfl
  | int n =>
      by_cases h : n = 0
      · exact Or.inl (by simp [get_numeric, h])
      · exact Or.inr (Or.inl ⟨n, h, by simp [get_numeric, h]⟩)
  | float q =>
      by_cases h : q = 0
      · exact Or.inl (by simp [get_numeric, h])
      · exact Or.inr (Or.inr ⟨q, h, by simp [get_numeric, h]⟩)
  | str s =>
      simp only [get_numeric]
      split
      · match hp : pyFloat? (stripCommas s) with
        | none => exact Or.inl rfl
        | some q =>
            by_cases h : q = 0
            · exact Or.inl (by simp [h])
            · exact Or.inr (Or.inr ⟨q, h, by simp [h]⟩)
      · match hp : pyFloat? (stripCommas s) with
        | none => exact Or.inl rfl
        | some q =>
            by_cases h : ratTrunc q = 0
            · exact Or.inl (by simp [h])
            · exact Or.inr (Or.inl ⟨ratTrunc q, h, by simp [h]⟩)

/-- C6: a payload with an empty or missing results list, or whose first
result has an empty data-shape (`DS`) list, makes the whole run abort with
the corresponding structural `ValueError`; `process_json_to_csv` returns
that error and produces no output rows at all. -/
theorem structural_error_aborts_run (p : Payload) :
    (p.results = [] → process_json_to_csv p = .error "No results found in JSON data") ∧
    (∀ r rest, p.results = r :: rest → r.ds = [] →
      process_json_to_csv p =
        .error "No DS data found in JSON structure - PowerBI session may not be established") := by
  obtain ⟨results⟩ := p
  constructor
  · intro h
    dsimp only at h
    subst h
    rfl
  · intro r rest hres hds
    dsimp only at hres
    subst hres
    obtain ⟨ts, ds⟩ := r
    dsimp only at hds
    subst hds
    rfl

/-- Witness for C6 at two concrete payloads. -/
theorem structural_error_aborts_run_witness :
    process_json_to_csv ⟨[]⟩ = .error "No results found in JSON data" ∧
    process_json_to_csv ⟨[⟨"ts", []⟩]⟩ =
      .error "No DS data found in JSON structure - PowerBI session may not be established" :=
  ⟨(structural_error_aborts_run ⟨[]⟩).1 rfl,
   (structural_error_aborts_run ⟨[⟨"ts", []⟩]⟩).2 ⟨"ts", []⟩ [] rfl rfl⟩

/-- C7: numeric coercion is idempotent on already-numeric non-zero input
(and in fact re-coercing any coercion result is a fixed point), maps `0`,
`0.0`, `"0"` and `"0.0"` to the empty marker, strips commas from strings
before parsing, and yields the empty marker on unparseable strings and on
`None`. -/
theorem get_numeric_idempotent_zero_empty :
    (∀ n : ℤ, n ≠ 0 → get_numeric (.int n) = .int n) ∧
    (∀ q : ℚ, q ≠ 0 → get_numeric (.float q) = .float q) ∧
    (∀ v : Value, get_numeric (get_numeric v).toValue = get_numeric v) ∧
    (get_numeric (.int 0) = .empty ∧ get_numeric (.float 0) = .empty ∧
      get_numeric (.str "0") = .empty ∧ get_numeric (.str "0.0") = .empty) ∧
    (∀ s : String, get_numeric (.str s) = get_numeric (.str (stripCommas s))) ∧
    (∀ s : String, pyFloat? (stripCommas s) = none → get_numeric (.str s) = .empty) ∧
    get_numeric .null = .empty := by
  refine ⟨fun n hn => by simp [get_numeric, hn],
    fun q hq => by simp [get_numeric, hq], fun v => ?_,
    ⟨by decide, by decide, by decide, by decide⟩,
    fun s => ?_, fun s h => get_numeric_str_parse_fail h, rfl⟩
  · rcases get_numeric_shape v with h | ⟨n, hn, h⟩ | ⟨q, hq, h⟩ <;> rw [h]
    · decide
    · simp [FVal.toValue, get_numeric, hn]
    · simp [FVal.toValue, get_numeric, hq]
  · simp only [get_numeric]
    rw [stripCommas_idem]

/-- Witness for C7 at concrete inputs. -/
theorem get_numeric_idempotent_zero_empty_witness :
    get_numeric (.int 7) = .int 7 ∧
    get_numeric (.float (mkRat 3 2)) = .float (mkRat 3 2) ∧
    get_numeric (get_numeric (.str "120.5")).toValue = get_numeric (.str "120.5") ∧
    get_numeric (.str "1,234") = get_numeric (.str (stripCommas "1,234")) ∧
    get_numeric (.str "abc") = .empty :=
  ⟨get_numeric_idempotent_zero_empty.1 7 (by decide),
   get_numeric_idempotent_zero_empty.2.1 (mkRat 3 2) (by decide),
   get_numeric_idempotent_zero_empty.2.2.1 (.str "120.5"),
   get_numeric_idempotent_zero_empty.2.2.2.2.1 "1,234",
   get_numeric_idempotent_zero_empty.2.2.2.2.2.1 "abc" (by decide)⟩

/-- C8: dictionary lookup is total: it returns the entry exactly when the
dictionary name is known, the index is an in-bounds integer and the entry
is non-blank after trimming; every other combination (unknown dictionary,
out-of-range or non-integer index, blank entry) yields `''`, and no case
raises. -/
theorem lookup_text_direct_total (vd : ValueDicts) (key : String) :
    (∀ (n : ℤ) (entries : List String), lookupDict vd key = some entries →
      0 ≤ n → n.toNat < entries.length → pyStrip (entries.getD n.toNat "") ≠ "" →
      lookup_text_direct vd (.int n) key = entries.getD n.toNat "") ∧
    (∀ (n : ℤ) (entries : List String), lookupDict vd key = some entries →
      0 ≤ n → n.toNat < entries.length → pyStrip (entries.getD n.toNat "") = "" →
      lookup_text_direct vd (.int n) key = "") ∧
    (∀ n : ℤ, lookupDict vd key = none → lookup_text_direct vd (.int n) key = "") ∧
    (∀ (n : ℤ) (entries : List String), lookupDict vd key = some entries →
      (n < 0 ∨ entries.length ≤ n.toNat) → lookup_text_direct vd (.int n) key = "") ∧
    (∀ v : Value, (∀ n : ℤ, v ≠ .int n) → lookup_text_direct vd v key = "") := by
  refine ⟨?_, ?_, ?_, ?_, ?_⟩
  · intro n entries h hn hlt hblank
    have hne : entries.getD n.toNat "" ≠ "" := by
      intro he
      exact hblank (by rw [he]; rfl)
    simp only [lookup_text_direct, h]
    rw [if_pos ⟨hn, hlt⟩, if_pos ⟨hne, hblank⟩]
  · intro n entries h hn hlt hblank
    simp only [lookup_text_direct, h]
    rw [if_pos ⟨hn, hlt⟩, if_neg (fun hcon => hcon.2 hblank)]
  · intro n h
    simp only [lookup_text_direct, h]
  · intro n entries h hout
    simp only [lookup_text_direct, h]
    rw [if_neg (by omega)]
  · intro v hv
    cases v with
    | int n => exact absurd rfl (hv n)
    | null => rfl
    | float q => simp only [lookup_text_direct]
    | str s => simp only [lookup_text_direct]

/-- Witness for C8 on a concrete dictionary. -/
theorem lookup_text_direct_total_witness :
    lookup_text_direct [("D0", ["A", " "])] (.int 0) "D0" = ["A", " "].getD 0 "" ∧
    lookup_text_direct [("D0", ["A", " "])] (.int 1) "D0" = "" ∧
    lookup_text_direct [("D0", ["A", " "])] (.int 0) "D9" = "" ∧
    lookup_text_direct [("D0", ["A", " "])] (.int 5) "D0" = "" ∧
    lookup_text_direct [("D0", ["A", " "])] (.float 1) "D0" = "" :=
  ⟨(lookup_text_direct_total [("D0", ["A", " "])] "D0").1 0 ["A", " "] rfl (by decide)
      (by decide) (by decide),
   (lookup_text_direct_total [("D0", ["A", " "])] "D0").2.1 1 ["A", " "] rfl (by decide)
      (by decide) (by decide),
   (lookup_text_direct_total [("D0", ["A", " "])] "D9").2.2.1 0 rfl,
   (lookup_text_direct_total [("D0", ["A", " "])] "D0").2.2.2.1 5 ["A", " "] rfl
      (by right; decide),
   (lookup_text_direct_total [("D0", ["A", " "])] "D0").2.2.2.2 (.float 1)
      (fun n => by simp)⟩

lemma mkRat_den_mul_1000 (q : ℚ) : mkRat q.num (q.den * 1000) = q / 1000 := by
  rw [Rat.mkRat_eq_div]
  push_cast
  rw [← div_div, Rat.num_div_den]

/-- C10: `convert_timestamp_to_date` is total and never raises: falsy
inputs and non-positive numbers give `''`; numbers above `1e10` are
epoch milliseconds (divided by 1000) and positive numbers up to `1e10`
epoch seconds; parseable strings behave like the parsed number; an
unparseable string of length at least 10 containing `-` gives its first
10 characters, any other unparseable string `''`. -/
theorem convert_timestamp_total :
    convert_timestamp_to_date .null = "" ∧
    convert_timestamp_to_date (.str "") = "" ∧
    (∀ n : ℤ, n ≤ 0 → convert_timestamp_to_date (.int n) = "") ∧
    (∀ q : ℚ, q ≤ 0 → convert_timestamp_to_date (.float q) = "") ∧
    (∀ q : ℚ, 0 < q → q ≤ 10000000000 →
      convert_timestamp_to_date (.float q) = dateFromEpochSecs q) ∧
    (∀ q : ℚ, 10000000000 < q →
      convert_timestamp_to_date (.float q) = dateFromEpochSecs (q / 1000)) ∧
    (∀ n : ℤ, convert_timestamp_to_date (.int n) = convert_timestamp_to_date (.float (n : ℚ))) ∧
    (∀ (s : String) (q : ℚ), pyFloat? s = some q → s ≠ "" →
      convert_timestamp_to_date (.str s) = convert_timestamp_to_date (.float q)) ∧
    (∀ s : String, s ≠ "" → pyFloat? s = none → 10 ≤ s.length → hasChar s '-' = true →
      convert_timestamp_to_date (.str s) = String.mk (s.toList.take 10)) ∧
    (∀ s : String, s ≠ "" → pyFloat? s = none → (s.length < 10 ∨ hasChar s '-' = false) →
      convert_timestamp_to_date (.str s) = "") := by
  refine ⟨rfl, rfl, ?_, ?_, ?_, ?_, ?_, ?_, ?_, ?_⟩
  · intro n hn
    by_cases h0 : n = 0
    · simp [convert_timestamp_to_date, h0]
    · simp only [convert_timestamp_to_date, convert_numeric_timestamp]
      rw [if_neg h0, if_pos (by exact_mod_cast hn)]
  · intro q hq
    by_cases h0 : q = 0
    · simp [convert_timestamp_to_date, h0]
    · simp only [convert_timestamp_to_date, convert_numeric_timestamp]
      rw [if_neg h0, if_pos hq]
  · intro q h1 h2
    simp only [convert_timestamp_to_date, convert_numeric_timestamp]
    rw [if_neg (ne_of_gt h1), if_neg (not_le.mpr h1), if_neg (not_lt.mpr h2)]
  · intro q h1
    have h0 : (0 : ℚ) < q := lt_trans (by norm_num) h1
    simp only [convert_timestamp_to_date, convert_numeric_timestamp]
    rw [if_neg (ne_of_gt h0), if_neg (not_le.mpr h0), if_pos h1, mkRat_den_mul_1000]
  · intro n
    by_cases h0 : n = 0
    · simp [convert_timestamp_to_date, h0]
    · simp only [convert_timestamp_to_date]
      rw [if_neg h0, if_neg (by exact_mod_cast h0)]
  · intro s q hp hs
    simp only [convert_timestamp_to_date]
    rw [if_neg hs, hp]
    by_cases h0 : q = 0
    · subst h0
      rw [if_pos rfl]
      simp [convert_numeric_timestamp]
    · rw [if_neg h0]
  · intro s hs hp hlen hdash
    simp only [convert_timestamp_to_date]
    rw [if_neg hs, hp, if_pos ⟨hlen, hdash⟩]
  · intro s hs hp hfail
    simp only [convert_timestamp_to_date]
    rw [if_neg hs, hp, if_neg (by rcases hfail with h | h <;> intro hc <;> simp_all <;> omega)]

/-- Witness for C10 at concrete inputs of every case. -/
theorem convert_timestamp_total_witness :
    convert_timestamp_to_date (.int (-5)) = "" ∧
    convert_timestamp_to_date (.float (mkRat (-3) 2)) = "" ∧
    convert_timestamp_to_date (.float 1700000000) = dateFromEpochSecs 1700000000 ∧
    convert_timestamp_to_date (.float 1700000000000) = dateFromEpochSecs (1700000000000 / 1000) ∧
    convert_timestamp_to_date (.int 42) = convert_timestamp_to_date (.float ((42 : ℤ) : ℚ)) ∧
    convert_timestamp_to_date (.str "123.5") = convert_timestamp_to_date (.float (mkRat 247 2)) ∧
    convert_timestamp_to_date (.str "2023-05-17T08:00:00") =
      String.mk ("2023-05-17T08:00:00".toList.take 10) ∧
    convert_timestamp_to_date (.str "x-y") = "" :=
  ⟨convert_timestamp_total.2.2.1 (-5) (by decide),
   convert_timestamp_total.2.2.2.1 (mkRat (-3) 2) (by decide),
   convert_timestamp_total.2.2.2.2.1 1700000000 (by norm_num) (by norm_num),
   convert_timestamp_total.2.2.2.2.2.1 1700000000000 (by norm_num),
   convert_timestamp_total.2.2.2.2.2.2.1 42,
   convert_timestamp_total.2.2.2.2.2.2.2.1 "123.5" (mkRat 247 2) (by decide) (by decide),
   convert_timestamp_total.2.2.2.2.2.2.2.2.1 "2023-05-17T08:00:00" (by decide) (by decide)
     (by decide) (by decide),
   convert_timestamp_total.2.2.2.2.2.2.2.2.2 "x-y" (by decide) (by decide) (by decide)⟩

lemma summaryGuard_all_true :
    ∀ l : List Value, (∀ v ∈ l, summaryGuardElem v = .ok true) → summaryGuard l = .ok true := by
  intro l
  induction l with
  | nil => intro _; rfl
  | cons v tl ih =>
      intro h
      have hv : summaryGuardElem v = .ok true := h v (by simp)
      simp only [summaryGuard, hv]
      exact ih (fun w hw => h w (by simp [hw]))

lemma map_summary_true (v0 v1 v2 v3 : Value) (vd : ValueDicts) (ts d : String)
    (hg : summaryGuard [v0, v1, v2, v3] = .ok true) :
    map_data_row_to_csv [v0, v1, v2, v3] vd ts d =
      .ok (some { baseRow ts d with
        oil_production := get_numeric v0, gas_production := get_numeric v1
        quantity := get_numeric v2, oil_equivalents_boe := get_numeric v3 }) := by
  simp only [map_data_row_to_csv, List.length_cons, List.length_nil]
  norm_num
  rw [hg]
  rfl

lemma map_ts_summary (v0 v1 v2 v3 : Value) (vd : ValueDicts) (ts d : String)
    (hbig : isBigNum v0 = true) (hg : summaryGuard [v0, v1, v2, v3] = .ok false) :
    map_data_row_to_csv [v0, v1, v2, v3] vd ts d =
      .ok (some { baseRow ts d with
        date := convert_timestamp_to_date v0
        oil_production := get_numeric v1, gas_production := get_numeric v2
        oil_equivalents_boe := get_numeric v3 }) := by
  simp only [map_data_row_to_csv, List.length_cons, List.length_nil]
  norm_num
  rw [hg]
  have hgv : get_value [v0, v1, v2, v3] 0 = v0 := rfl
  simp only [hgv, hbig]
  rfl

/-- An element of the kind the length-4 summary guard lets through: a
string, a float, or an integer above 100. -/
def SummaryLike (v : Value) : Prop :=
  (∃ s, v = .str s) ∨ (∃ q, v = .float q) ∨ ∃ n, v = .int n ∧ 100 < n

lemma summaryGuardElem_of_summaryLike {v : Value} (h : SummaryLike v) :
    summaryGuardElem v = .ok true := by
  rcases h with ⟨s, rfl⟩ | ⟨q, rfl⟩ | ⟨n, rfl, hn⟩
  · rfl
  · rfl
  · simp [summaryGuardElem, hn]

/-- C9: every length-4 row whose elements are each a string, a float, or
an integer above 100 is taken by the summary branch and decoded into a
record (never discarded), with positions 0-3 coerced into oil, gas,
quantity, BOE; in particular four unparseable strings yield the record
whose installation, oil, gas, quantity and BOE are all empty. -/
theorem len4_guard_rows_emit_records :
    (∀ (v0 v1 v2 v3 : Value) (vd : ValueDicts) (ts d : String),
      SummaryLike v0 → SummaryLike v1 → SummaryLike v2 → SummaryLike v3 →
      map_data_row_to_csv [v0, v1, v2, v3] vd ts d =
        .ok (some { baseRow ts d with
          oil_production := get_numeric v0, gas_production := get_numeric v1
          quantity := get_numeric v2, oil_equivalents_boe := get_numeric v3 })) ∧
    (∀ (s0 s1 s2 s3 : String) (vd : ValueDicts) (ts d : String),
      pyFloat? (stripCommas s0) = none → pyFloat? (stripCommas s1) = none →
      pyFloat? (stripCommas s2) = none → pyFloat? (stripCommas s3) = none →
      map_data_row_to_csv [.str s0, .str s1, .str s2, .str s3] vd ts d =
        .ok (some (baseRow ts d))) := by
  constructor
  · intro v0 v1 v2 v3 vd ts d h0 h1 h2 h3
    refine map_summary_true v0 v1 v2 v3 vd ts d (summaryGuard_all_true _ ?_)
    intro v hv
    simp only [List.mem_cons, List.not_mem_nil, or_false] at hv
    rcases hv with rfl | rfl | rfl | rfl
    · exact summaryGuardElem_of_summaryLike h0
    · exact summaryGuardElem_of_summaryLike h1
    · exact summaryGuardElem_of_summaryLike h2
    · exact summaryGuardElem_of_summaryLike h3
  · intro s0 s1 s2 s3 vd ts d h0 h1 h2 h3
    have h := map_summary_true (.str s0) (.str s1) (.str s2) (.str s3) vd ts d
      (summaryGuard_all_true _ (by
        intro v hv
        simp only [List.mem_cons, List.not_mem_nil, or_false] at hv
        rcases hv with rfl | rfl | rfl | rfl <;> rfl))
    rw [h, get_numeric_str_parse_fail h0, get_numeric_str_parse_fail h1,
      get_numeric_str_parse_fail h2, get_numeric_str_parse_fail h3]
    rfl

/-- Witness for C9 at a concrete numeric row and a concrete all-string row. -/
theorem len4_guard_rows_emit_records_witness :
    map_data_row_to_csv [.float (mkRat 401 2), .int 101, .str "5", .float 400] [] "ts" "d" =
      .ok (some { baseRow "ts" "d" with
        oil_production := get_numeric (.float (mkRat 401 2)), gas_production := get_numeric (.int 101)
        quantity := get_numeric (.str "5"), oil_equivalents_boe := get_numeric (.float 400) }) ∧
    map_data_row_to_csv [.str "a", .str "b", .str "c", .str "d"] [] "ts" "d" =
      .ok (some (baseRow "ts" "d")) :=
  ⟨len4_guard_rows_emit_records.1 (.float (mkRat 401 2)) (.int 101) (.str "5") (.float 400)
      [] "ts" "d" (Or.inr (Or.inl ⟨_, rfl⟩)) (Or.inr (Or.inr ⟨101, rfl, by norm_num⟩))
      (Or.inl ⟨_, rfl⟩) (Or.inr (Or.inl ⟨_, rfl⟩)),
   len4_guard_rows_emit_records.2 "a" "b" "c" "d" [] "ts" "d"
      (by decide) (by decide) (by decide) (by decide)⟩

/-- An element the claim C3 calls numeric: an int or a float; the guard
additionally demands that integers exceed 100. -/
def NumericOver100 (v : Value) : Prop :=
  (∃ q, v = .float q) ∨ ∃ n, v = .int n ∧ 100 < n

/-- C3 (amended): a length-4 row whose elements are all numeric decodes
through the summary branch — mapping positions 0-3 to oil, gas, quantity,
BOE with zero coercions normalized to empty and the ambient inferred date
kept — only when every integer element exceeds 100 (the guard of line 492
rejects small integers, see the counterexample). -/
theorem len4_numeric_over100_summary_mapping (v0 v1 v2 v3 : Value) (vd : ValueDicts)
    (ts d : String) (h0 : NumericOver100 v0) (h1 : NumericOver100 v1)
    (h2 : NumericOver100 v2) (h3 : NumericOver100 v3) :
    map_data_row_to_csv [v0, v1, v2, v3] vd ts d =
      .ok (some { baseRow ts d with
        oil_production := get_numeric v0, gas_production := get_numeric v1
        quantity := get_numeric v2, oil_equivalents_boe := get_numeric v3 }) := by
  refine map_summary_true v0 v1 v2 v3 vd ts d (summaryGuard_all_true _ ?_)
  intro v hv
  simp only [List.mem_cons, List.not_mem_nil, or_false] at hv
  have : NumericOver100 v := by rcases hv with rfl | rfl | rfl | rfl <;> assumption
  exact summaryGuardElem_of_summaryLike (Or.inr this)

/-- Witness for C3's amended theorem at a concrete all-numeric row. -/
theorem len4_numeric_over100_summary_mapping_witness :
    map_data_row_to_csv [.float 10, .float 20, .float 5, .float 400] [] "ts" "d" =
      .ok (some { baseRow "ts" "d" with
        oil_production := get_numeric (.float 10), gas_production := get_numeric (.float 20)
        quantity := get_numeric (.float 5), oil_equivalents_boe := get_numeric (.float 400) }) :=
  len4_numeric_over100_summary_mapping (.float 10) (.float 20) (.float 5) (.float 400)
    [] "ts" "d" (Or.inl ⟨_, rfl⟩) (Or.inl ⟨_, rfl⟩) (Or.inl ⟨_, rfl⟩) (Or.inl ⟨_, rfl⟩)

/-- Counterexample to C3 as stated: the all-numeric length-4 row
`[10.0, 20.0, 5, 400.0]` contains the integer `5 ≤ 100`, so the guard of
line 492 fails, no other branch applies, and the decoder discards the row
instead of mapping positions 0-3. -/
theorem len4_numeric_small_int_discarded :
    map_data_row_to_csv [.float 10, .float 20, .int 5, .float 400] [] "ts" "d" = .ok none :=
  rfl

/-- C2 (amended): a length-4 row whose first element is a number above
`1e12` decodes as a timestamped summary — date from element 0, elements
1-3 to oil, gas, BOE, quantity empty — only when the line-492 summary
guard evaluates to false (some integer element at most 100 occurs before
any null); otherwise the summary branch captures the row first (see the
counterexample). -/
theorem ts_summary_decode_when_guard_fails (v0 v1 v2 v3 : Value) (vd : ValueDicts)
    (ts d : String) (hbig : isBigNum v0 = true)
    (hg : summaryGuard [v0, v1, v2, v3] = .ok false) :
    map_data_row_to_csv [v0, v1, v2, v3] vd ts d =
      .ok (some { baseRow ts d with
        date := convert_timestamp_to_date v0
        oil_production := get_numeric v1, gas_production := get_numeric v2
        oil_equivalents_boe := get_numeric v3 }) :=
  map_ts_summary v0 v1 v2 v3 vd ts d hbig hg

/-- Witness for C2's amended theorem at the row
`[1700000000000, 5, 200.5, 300.5]` (the integer `5` defeats the summary
guard). -/
theorem ts_summary_decode_when_guard_fails_witness :
    map_data_row_to_csv
        [.int 1700000000000, .int 5, .float (mkRat 401 2), .float (mkRat 601 2)] [] "ts" "" =
      .ok (some { baseRow "ts" "" with
        date := convert_timestamp_to_date (.int 1700000000000)
        oil_production := get_numeric (.int 5)
        gas_production := get_numeric (.float (mkRat 401 2))
        oil_equivalents_boe := get_numeric (.float (mkRat 601 2)) }) :=
  ts_summary_decode_when_guard_fails (.int 1700000000000) (.int 5) (.float (mkRat 401 2))
    (.float (mkRat 601 2)) [] "ts" "" (by decide) rfl

/-- Counterexample to C2 as stated: for the length-4 row
`[1700000000000, 100.5, 200.5, 300.5]` — first element a number above
`1e12` — the summary guard passes (ints above 100, floats unconditional),
so the summary branch fires first: quantity is the non-empty `200.5`
(the claim requires it empty), the ambient date `''` is kept instead of
the converted calendar date, and `1700000000000` itself lands in
oil_production. -/
theorem big_first_len4_summary_counterexample :
    map_data_row_to_csv
        [.int 1700000000000, .float (mkRat 201 2), .float (mkRat 401 2), .float (mkRat 601 2)]
        [] "ts" "" =
      .ok (some { baseRow "ts" "" with
        oil_production := .int 1700000000000, gas_production := .float (mkRat 201 2)
        quantity := .float (mkRat 401 2), oil_equivalents_boe := .float (mkRat 601 2) }) ∧
    FVal.float (mkRat 401 2) ≠ FVal.empty ∧
    ("" : String) ≠ convert_timestamp_to_date (.int 1700000000000) :=
  ⟨rfl, by decide, by decide⟩

lemma dateUpdate_eq (cur : String) (row : List Value) :
    dateUpdate cur row =
      if isDateMarkerRow row then convert_timestamp_to_date (get_value row 0) else cur := by
  unfold dateUpdate isDateMarkerRow
  by_cases h1 : row.length = 1 <;> by_cases h2 : 4 ≤ row.length <;>
    by_cases h3 : isBigNum (get_value row 0) = true <;> simp [h1, h2, h3]

lemma find?_append_match {α : Type} (l1 l2 : List α) (p : α → Bool) :
    (l1 ++ l2).find? p =
      match l1.find? p with
      | some a => some a
      | none => l2.find? p := by
  induction l1 with
  | nil => rfl
  | cons a tl ih => by_cases h : p a <;> simp [List.find?, h, ih]

lemma dateScan_length (cur : String) (rows : List (List Value)) :
    (dateScan cur rows).length = rows.length := by
  induction rows generalizing cur with
  | nil => rfl
  | cons r tl ih => simp [dateScan, ih]

lemma dateScan_getD (rows : List (List Value)) :
    ∀ (cur : String) (i : ℕ), i < rows.length →
      (dateScan cur rows).getD i "" =
        match (rows.take (i + 1)).reverse.find? isDateMarkerRow with
        | some r => convert_timestamp_to_date (get_value r 0)
        | none => cur := by
  induction rows with
  | nil => intro cur i h; simp at h
  | cons row tl ih =>
      intro cur i hi
      cases i with
      | zero =>
          show (dateUpdate cur row :: dateScan (dateUpdate cur row) tl).getD 0 "" = _
          rw [List.getD_cons_zero, dateUpdate_eq]
          have htake : ((row :: tl).take 1).reverse = [row] := by simp
          rw [htake]
          by_cases hm : isDateMarkerRow row = true <;> simp [List.find?, hm]
      | succ j =>
          have hj : j < tl.length := by simp at hi; omega
          show (dateUpdate cur row :: dateScan (dateUpdate cur row) tl).getD (j + 1) "" = _
          rw [List.getD_cons_succ, ih (dateUpdate cur row) j hj]
          have htake : ((row :: tl).take (j + 2)).reverse = (tl.take (j + 1)).reverse ++ [row] := by
            simp
          rw [htake, find?_append_match]
          cases hf : (tl.take (j + 1)).reverse.find? isDateMarkerRow with
          | some r => rfl
          | none =>
              rw [dateUpdate_eq]
              by_cases hm : isDateMarkerRow row = true <;> simp [List.find?, hm]

/-- C4 (amended): the extractor's inferred-date sequence is parallel to
the row sequence (one date per row) and is the forward scan from `''`
that updates the running date exactly at marker rows — rows of length 1
or of length at least 4 whose first element is a number above `1e12` —
and carries it forward otherwise; equivalently, the date of row `i` is
the converted first element of the most recent marker row at or before
`i` (rows of length 2 or 3 never update, see the counterexample). -/
theorem inferred_dates_scan_spec (p : Payload) (rows : List (List Value)) (vd : ValueDicts)
    (ts : String) (dates : List String)
    (h : extract_data_from_json p = .ok (rows, vd, ts, dates)) :
    dates.length = rows.length ∧
    ∀ i, i < rows.length → dates.getD i "" = dateSpecAt rows i := by
  obtain ⟨results⟩ := p
  cases results with
  | nil => exact absurd h (by simp [extract_data_from_json])
  | cons r rest =>
      obtain ⟨ts', ds⟩ := r
      cases ds with
      | nil => exact absurd h (by simp [extract_data_from_json])
      | cons ds0 dstl =>
          simp only [extract_data_from_json, Except.ok.injEq, Prod.mk.injEq] at h
          obtain ⟨h1, _, _, h4⟩ := h
          subst h1
          rw [← h4]
          refine ⟨dateScan_length _ _, fun i hi => ?_⟩
          rw [dateScan_getD _ "" i hi]
          rfl

/-- Witness for C4 at a concrete two-row payload (a length-4 marker row
followed by a length-2 data row, which inherits the marker's date). -/
theorem inferred_dates_scan_spec_witness :
    (["2023-11-14", "2023-11-14"] : List String).length =
      ([[.int 1700000000000, .null, .null, .null], [.int 0, .int 1]] : List (List Value)).length ∧
    (["2023-11-14", "2023-11-14"] : List String).getD 1 "" =
      dateSpecAt [[.int 1700000000000, .null, .null, .null], [.int 0, .int 1]] 1 := by
  have h := inferred_dates_scan_spec
    ⟨[⟨"ts", [⟨[], [⟨some [some [.int 1700000000000, .null, .null, .null],
        some [.int 0, .int 1]], none⟩]⟩]⟩]⟩
    [[.int 1700000000000, .null, .null, .null], [.int 0, .int 1]] [] "ts"
    ["2023-11-14", "2023-11-14"] rfl
  exact ⟨h.1, h.2 1 (by decide)⟩

/-- Counterexample to C4 as stated: a length-2 row whose first element is
the number `1700000000000 > 1e12` does not update the running date (the
scan only reacts to lengths 1 and at least 4), so its inferred date stays
`''` although the claim requires the converted calendar date, which is
non-empty. -/
theorem len2_marker_row_does_not_update_date :
    extract_data_from_json
        ⟨[⟨"ts", [⟨[], [⟨some [some [.int 1700000000000, .int 1]], none⟩]⟩]⟩]⟩ =
      .ok ([[.int 1700000000000, .int 1]], [], "ts", [""]) ∧
    convert_timestamp_to_date (.int 1700000000000) ≠ "" :=
  ⟨rfl, by decide⟩

lemma map_ge9_some (row : List Value) (vd : ValueDicts) (ts d : String) (r : CsvRow)
    (hlen : 9 ≤ row.length) (h : map_data_row_to_csv row vd ts d = .ok (some r)) :
    detail_branch row vd ts d = some r := by
  unfold map_data_row_to_csv at h
  rw [if_neg (by omega), if_neg (by omega),
    if_neg (show ¬row.length = 4 by omega)] at h
  dsimp only at h
  by_cases hbig : isBigNum (get_value row 0) = true
  · rw [if_pos hbig, if_neg (show ¬row.length = 4 by omega)] at h
    exact absurd h (by simp)
  · rw [if_neg hbig, if_pos hlen] at h
    exact (Except.ok.inj h)

lemma detail_branch_some (row : List Value) (vd : ValueDicts) (ts d : String) (r : CsvRow)
    (h : detail_branch row vd ts d = some r) :
    r = assignCodeStatus
          (assignProduction (resolveFields row vd ts d) (production_values row)) row vd ∧
    r.installation ≠ "" ∧
    (r.oil_production.truthy ∨ r.gas_production.truthy ∨ r.oil_equivalents_boe.truthy) := by
  unfold detail_branch at h
  split at h <;> try exact Option.noConfusion h
  split_ifs at h with h1 h2 h3
  obtain rfl := (Option.some.inj h).symm
  exact ⟨rfl, h3.1, h3.2⟩

lemma getD_take (l : List ℚ) : ∀ k i : ℕ, i < k → (l.take k).getD i 0 = l.getD i 0 := by
  induction l with
  | nil => intro k i _; simp
  | cons a tl ih =>
      intro k i hik
      cases k with
      | zero => omega
      | succ k' =>
          cases i with
          | zero => rfl
          | succ i' =>
              show (a :: tl.take k').getD (i' + 1) 0 = (a :: tl).getD (i' + 1) 0
              rw [List.getD_cons_succ, List.getD_cons_succ]
              exact ih k' i' (by omega)

lemma getD_drop (l : List ℚ) : ∀ k i : ℕ, (l.drop k).getD i 0 = l.getD (k + i) 0 := by
  induction l with
  | nil => intro k i; simp
  | cons a tl ih =>
      intro k i
      cases k with
      | zero => simp
      | succ k' =>
          show (tl.drop k').getD i 0 = (a :: tl).getD (k' + 1 + i) 0
          rw [ih k' i]
          have he : k' + 1 + i = (k' + i) + 1 := by omega
          rw [he, List.getD_cons_succ]

lemma findQty_lt_length : ∀ (pv : List ℚ) (k : ℕ), findQty pv = some k → k < pv.length := by
  intro pv
  induction pv with
  | nil => intro k h; simp [findQty] at h
  | cons q tl ih =>
      intro k h
      by_cases hq : isQtyCandidate q = true
      · simp [findQty, hq] at h
        simp only [List.length_cons]
        omega
      · simp [findQty, hq] at h
        obtain ⟨j, hj, hjk⟩ := h
        have := ih j hj
        simp only [List.length_cons]
        omega

lemma assignOilGas_proj (r : CsvRow) (b : List ℚ) :
    (assignOilGas r b).type = r.type ∧ (assignOilGas r b).quantity = r.quantity ∧
    (assignOilGas r b).oil_equivalents_boe = r.oil_equivalents_boe := by
  unfold assignOilGas
  split_ifs <;> exact ⟨rfl, rfl, rfl⟩

lemma assignBoe_proj (r : CsvRow) (a : List ℚ) :
    (assignBoe r a).type = r.type ∧ (assignBoe r a).quantity = r.quantity ∧
    (assignBoe r a).oil_production = r.oil_production ∧
    (assignBoe r a).gas_production = r.gas_production := by
  unfold assignBoe
  split_ifs <;> exact ⟨rfl, rfl, rfl, rfl⟩

lemma assignCodeStatus_proj (r : CsvRow) (row : List Value) (vd : ValueDicts) :
    (assignCodeStatus r row vd).oil_production = r.oil_production ∧
    (assignCodeStatus r row vd).gas_production = r.gas_production ∧
    (assignCodeStatus r row vd).oil_equivalents_boe = r.oil_equivalents_boe ∧
    (assignCodeStatus r row vd).quantity = r.quantity ∧
    (assignCodeStatus r row vd).type = r.type ∧
    (assignCodeStatus r row vd).installation = r.installation := by
  unfold assignCodeStatus
  cases smallIntAt row 8 <;> cases smallIntAt row 9 <;> exact ⟨rfl, rfl, rfl, rfl, rfl, rfl⟩

lemma assignOilGas_two (r : CsvRow) (b : List ℚ) (h : 2 ≤ b.length) :
    (assignOilGas r b).oil_production = .float (b.getD 0 0) ∧
    (assignOilGas r b).gas_production = .float (b.getD 1 0) := by
  unfold assignOilGas
  rw [if_pos h]
  exact ⟨rfl, rfl⟩

lemma assignOilGas_one (r : CsvRow) (b : List ℚ) (h : b.length = 1) :
    (gasType r.type = true → (assignOilGas r b).gas_production = .float (b.getD 0 0)) ∧
    (gasType r.type = false → (assignOilGas r b).oil_production = .float (b.getD 0 0)) := by
  unfold assignOilGas
  rw [if_neg (by omega), if_pos h]
  constructor
  · intro hg
    rw [if_pos hg]
  · intro hg
    rw [if_neg (by simp [hg])]

lemma assignBoe_pos (r : CsvRow) (a : List ℚ) (h : 1 ≤ a.length) :
    (assignBoe r a).oil_equivalents_boe = .float (a.getD 0 0) := by
  unfold assignBoe
  rw [if_pos h]

lemma assignProduction_spec (r : CsvRow) (pv : List ℚ) (hpv : 3 ≤ pv.length) :
    (assignProduction r pv).type = r.type ∧
    (∀ k, findQty pv = some k →
      (assignProduction r pv).quantity = .int (ratTrunc (pv.getD k 0)) ∧
      (2 ≤ k → (assignProduction r pv).oil_production = .float (pv.getD 0 0) ∧
               (assignProduction r pv).gas_production = .float (pv.getD 1 0)) ∧
      (k = 1 →
        (gasType r.type = true →
          (assignProduction r pv).gas_production = .float (pv.getD 0 0)) ∧
        (gasType r.type = false →
          (assignProduction r pv).oil_production = .float (pv.getD 0 0))) ∧
      (k + 1 < pv.length →
        (assignProduction r pv).oil_equivalents_boe = .float (pv.getD (k + 1) 0))) ∧
    (findQty pv = none →
      (assignProduction r pv).oil_production = .float (pv.getD 0 0) ∧
      (assignProduction r pv).gas_production = .float (pv.getD 1 0) ∧
      (assignProduction r pv).oil_equivalents_boe = .float (pv.getD 2 0)) := by
  unfold assignProduction
  rw [if_pos hpv]
  cases hfq : findQty pv with
  | none =>
      refine ⟨rfl, fun k hk => absurd hk (by simp), fun _ => ⟨rfl, rfl, rfl⟩⟩
  | some k =>
      have hklt : k < pv.length := findQty_lt_length pv k hfq
      have hblen : (pv.take k).length = k := by
        rw [List.length_take]
        omega
      refine ⟨?_, ?_, fun hn => absurd hn (by simp)⟩
      · rw [(assignBoe_proj _ _).1, (assignOilGas_proj _ _).1]
      · intro k' hk'
        obtain rfl : k = k' := Option.some.inj hk'
        refine ⟨?_, ?_, ?_, ?_⟩
        · rw [(assignBoe_proj _ _).2.1, (assignOilGas_proj _ _).2.1]
        · intro h2
          have := assignOilGas_two { r with quantity := .int (ratTrunc (pv.getD k 0)) }
            (pv.take k) (by omega)
          rw [(assignBoe_proj _ _).2.2.1, (assignBoe_proj _ _).2.2.2, this.1, this.2,
            getD_take _ k 0 (by omega), getD_take _ k 1 (by omega)]
          exact ⟨rfl, rfl⟩
        · intro h1
          subst h1
          have := assignOilGas_one { r with quantity := .int (ratTrunc (pv.getD 1 0)) }
            (pv.take 1) (by omega)
          constructor
          · intro hg
            rw [(assignBoe_proj _ _).2.2.2, this.1 hg, getD_take _ 1 0 (by omega)]
          · intro hg
            rw [(assignBoe_proj _ _).2.2.1, this.2 hg, getD_take _ 1 0 (by omega)]
        · intro hb
          rw [assignBoe_pos _ _ (by rw [List.length_drop]; omega), getD_drop _ (k + 1) 0,
            Nat.add_zero]

/-- C1 (amended): every record returned by the decoder for a detail row
(length at least 9) has a non-empty installation and at least one of
oil_production, gas_production, oil_equivalents_boe populated; the
summary branches, however, emit records with an empty installation, and
the effective batch loop forwards every decode result — including the
`None` of dropped rows — to the serializer (see the counterexample). -/
theorem detail_records_nonempty_installation_and_production (row : List Value)
    (vd : ValueDicts) (ts d : String) (r : CsvRow) (hlen : 9 ≤ row.length)
    (h : map_data_row_to_csv row vd ts d = .ok (some r)) :
    r.installation ≠ "" ∧
    (r.oil_production.truthy ∨ r.gas_production.truthy ∨ r.oil_equivalents_boe.truthy) :=
  (detail_branch_some row vd ts d r (map_ge9_some row vd ts d r hlen h)).2

/-- Witness for C1's amended theorem at a concrete detail row. -/
theorem detail_records_nonempty_installation_and_production_witness :
    ({ baseRow "ts" "d" with
        installation := "Inst", type := "Gás"
        oil_production := .float (mkRat 241 2), gas_production := .float (mkRat 151 5)
        quantity := .int 5, oil_equivalents_boe := .float (mkRat 8001 10) } : CsvRow).installation
        ≠ "" ∧
    (({ baseRow "ts" "d" with
        installation := "Inst", type := "Gás"
        oil_production := .float (mkRat 241 2), gas_production := .float (mkRat 151 5)
        quantity := .int 5,
        oil_equivalents_boe := .float (mkRat 8001 10) } : CsvRow).oil_production.truthy ∨
      ({ baseRow "ts" "d" with
        installation := "Inst", type := "Gás"
        oil_production := .float (mkRat 241 2), gas_production := .float (mkRat 151 5)
        quantity := .int 5,
        oil_equivalents_boe := .float (mkRat 8001 10) } : CsvRow).gas_production.truthy ∨
      ({ baseRow "ts" "d" with
        installation := "Inst", type := "Gás"
        oil_production := .float (mkRat 241 2), gas_production := .float (mkRat 151 5)
        quantity := .int 5,
        oil_equivalents_boe := .float (mkRat 8001 10) } : CsvRow).oil_equivalents_boe.truthy) :=
  detail_records_nonempty_installation_and_production
    [.int 0, .int 0, .int 0, .int 0, .int 0, .int 0,
     .float (mkRat 241 2), .float (mkRat 151 5), .int 5, .float (mkRat 8001 10)]
    [("D0", ["Inst"]), ("D2", ["Gás"])] "ts" "d"
    { baseRow "ts" "d" with
      installation := "Inst", type := "Gás"
      oil_production := .float (mkRat 241 2), gas_production := .float (mkRat 151 5)
      quantity := .int 5, oil_equivalents_boe := .float (mkRat 8001 10) }
    (by decide) rfl

/-- Counterexample to C1 as stated: a payload whose first page holds the
summary row `[200.5, 300.5, 150.5, 400.5]` and the length-2 row
`[1.0, 2.0]` serializes to a record whose installation is empty followed
by a `None` placeholder for the dropped row — so both an
empty-installation record and a dropped row reach the serializer. -/
theorem summary_record_reaches_serializer_counterexample :
    process_json_to_csv
        ⟨[⟨"ts", [⟨[], [⟨some [some [.float (mkRat 401 2), .float (mkRat 601 2),
            .float (mkRat 301 2), .float (mkRat 801 2)], some [.float 1, .float 2]],
          none⟩]⟩]⟩]⟩ =
      .ok [some { baseRow "ts" "" with
        oil_production := .float (mkRat 401 2), gas_production := .float (mkRat 601 2)
        quantity := .float (mkRat 301 2), oil_equivalents_boe := .float (mkRat 801 2) },
        none] ∧
    ({ baseRow "ts" "" with
        oil_production := .float (mkRat 401 2), gas_production := .float (mkRat 601 2)
        quantity := .float (mkRat 301 2),
        oil_equivalents_boe := .float (mkRat 801 2) } : CsvRow).installation = "" :=
  ⟨rfl, rfl⟩

/-- C5: for a detail row (length at least 9) that the decoder turns into
a record and whose collected non-zero production values number at least
3: if some value is an integer in `[1, 1000]`, the first such value (at
position `k`) becomes quantity; with at least 2 values before `k` the
first two become oil and gas; with exactly 1 value before `k` it becomes
gas when the resolved type text contains `gás`/`gas` case-insensitively
and oil otherwise; the first value after `k` becomes BOE.  With no such
integer the first three values become oil, gas, BOE.  In particular the
row with production values `[120.5, 30.2, 5, 800.1]` and type `Gás`
yields quantity 5, oil 120.5, gas 30.2, BOE 800.1. -/
theorem detail_production_value_assignment :
    (∀ (row : List Value) (vd : ValueDicts) (ts d : String) (r : CsvRow),
      9 ≤ row.length → map_data_row_to_csv row vd ts d = .ok (some r) →
      3 ≤ (production_values row).length →
      (∀ k, findQty (production_values row) = some k →
        r.quantity = .int (ratTrunc ((production_values row).getD k 0)) ∧
        (2 ≤ k → r.oil_production = .float ((production_values row).getD 0 0) ∧
          r.gas_production = .float ((production_values row).getD 1 0)) ∧
        (k = 1 →
          (gasType r.type = true →
            r.gas_production = .float ((production_values row).getD 0 0)) ∧
          (gasType r.type = false →
            r.oil_production = .float ((production_values row).getD 0 0))) ∧
        (k + 1 < (production_values row).length →
          r.oil_equivalents_boe = .float ((production_values row).getD (k + 1) 0))) ∧
      (findQty (production_values row) = none →
        r.oil_production = .float ((production_values row).getD 0 0) ∧
        r.gas_production = .float ((production_values row).getD 1 0) ∧
        r.oil_equivalents_boe = .float ((production_values row).getD 2 0))) ∧
    map_data_row_to_csv
        [.int 0, .int 0, .int 0, .int 0, .int 0, .int 0,
         .float (mkRat 241 2), .float (mkRat 151 5), .int 5, .float (mkRat 8001 10)]
        [("D0", ["Inst"]), ("D2", ["Gás"])] "ts" "d" =
      .ok (some { baseRow "ts" "d" with
        installation := "Inst", type := "Gás"
        oil_production := .float (mkRat 241 2), gas_production := .float (mkRat 151 5)
        quantity := .int 5, oil_equivalents_boe := .float (mkRat 8001 10) }) := by
  constructor
  · intro row vd ts d r hlen h hpv
    obtain ⟨hr, -, -⟩ := detail_branch_some row vd ts d r (map_ge9_some row vd ts d r hlen h)
    obtain ⟨ht, hsome, hnone⟩ :=
      assignProduction_spec (resolveFields row vd ts d) (production_values row) hpv
    obtain ⟨hoil, hgas, hboe, hqty, htype, -⟩ :=
      assignCodeStatus_proj
        (assignProduction (resolveFields row vd ts d) (production_values row)) row vd
    subst hr
    constructor
    · intro k hk
      obtain ⟨hq, h2, h1, hb⟩ := hsome k hk
      refine ⟨by rw [hqty, hq], ?_, ?_, ?_⟩
      · intro hk2
        rw [hoil, hgas]
        exact h2 hk2
      · intro hk1
        constructor
        · intro hg
          rw [htype, ht] at hg
          rw [hgas]
          exact (h1 hk1).1 hg
        · intro hg
          rw [htype, ht] at hg
          rw [hoil]
          exact (h1 hk1).2 hg
      · intro hkb
        rw [hboe]
        exact hb hkb
    · intro hn
      obtain ⟨o, g, b⟩ := hnone hn
      exact ⟨by rw [hoil]; exact o, by rw [hgas]; exact g, by rw [hboe]; exact b⟩
  · rfl

/-- Witness for C5's general part at the concrete detail row with
production values `[120.5, 30.2, 5, 800.1]` and type `Gás` (quantity
candidate found at position 2). -/
theorem detail_production_value_assignment_witness :
    ({ baseRow "ts" "d" with
        installation := "Inst", type := "Gás"
        oil_production := .float (mkRat 241 2), gas_production := .float (mkRat 151 5)
        quantity := .int 5, oil_equivalents_boe := .float (mkRat 8001 10) } : CsvRow).quantity =
      .int (ratTrunc ((production_values
        [.int 0, .int 0, .int 0, .int 0, .int 0, .int 0,
         .float (mkRat 241 2), .float (mkRat 151 5), .int 5,
         .float (mkRat 8001 10)]).getD 2 0)) ∧
    ({ baseRow "ts" "d" with
        installation := "Inst", type := "Gás"
        oil_production := .float (mkRat 241 2), gas_production := .float (mkRat 151 5)
        quantity := .int 5,
        oil_equivalents_boe := .float (mkRat 8001 10) } : CsvRow).oil_production =
      .float ((production_values
        [.int 0, .int 0, .int 0, .int 0, .int 0, .int 0,
         .float (mkRat 241 2), .float (mkRat 151 5), .int 5,
         .float (mkRat 8001 10)]).getD 0 0) ∧
    ({ baseRow "ts" "d" with
        installation := "Inst", type := "Gás"
        oil_production := .float (mkRat 241 2), gas_production := .float (mkRat 151 5)
        quantity := .int 5,
        oil_equivalents_boe := .float (mkRat 8001 10) } : CsvRow).gas_production =
      .float ((production_values
        [.int 0, .int 0, .int 0, .int 0, .int 0, .int 0,
         .float (mkRat 241 2), .float (mkRat 151 5), .int 5,
         .float (mkRat 8001 10)]).getD 1 0) ∧
    ({ baseRow "ts" "d" with
        installation := "Inst", type := "Gás"
        oil_production := .float (mkRat 241 2), gas_production := .float (mkRat 151 5)
        quantity := .int 5,
        oil_equivalents_boe := .float (mkRat 8001 10) } : CsvRow).oil_equivalents_boe =
      .float ((production_values
        [.int 0, .int 0, .int 0, .int 0, .int 0, .int 0,
         .float (mkRat 241 2), .float (mkRat 151 5), .int 5,
         .float (mkRat 8001 10)]).getD 3 0) := by
  obtain ⟨hq, h2, h1, hb⟩ := (detail_production_value_assignment.1
    [.int 0, .int 0, .int 0, .int 0, .int 0, .int 0,
     .float (mkRat 241 2), .float (mkRat 151 5), .int 5, .float (mkRat 8001 10)]
    [("D0", ["Inst"]), ("D2", ["Gás"])] "ts" "d"
    { baseRow "ts" "d" with
      installation := "Inst", type := "Gás"
      oil_production := .float (mkRat 241 2), gas_production := .float (mkRat 151 5)
      quantity := .int 5, oil_equivalents_boe := .float (mkRat 8001 10) }
    (by decide) rfl (by decide)).1 2 (by decide)
  exact ⟨hq, (h2 (by norm_num)).1, (h2 (by norm_num)).2, hb (by decide)⟩

end Brazil
